import Mathlib

/-!
Verification of the sensor channel acquisition and validation engine of
`who8myrpi/sensors.py` (DHT22 sensor monitor).

The Python source is shallowly embedded: Python nonnegative integers become
`Nat`, Python true division on sensor tenths becomes exact division on `ℚ`,
the mutable `Channel` object becomes a `Channel` record transformed by pure
functions, exceptions become explicit error results carrying the state at the
point of the raise, and the shared `Queue.Queue` becomes a FIFO list with the
`maxsize` bound of the Python queue.
-/

deriving instance DecidableEq for Except

namespace Who8MyRPi

/-! ### Protocol decoder (`sensors.py` lines 106-216) -/

/-- Embedding of `c2f` (line 106): convert Celsius to Fahrenheit,
`F = C * 9./5. + 32.`. -/
def c2f (C : ℚ) : ℚ := C * 9 / 5 + 32

/-- Embedding of `compute_checksum` (line 122): `val_sum & 255 == byte_5`.
On nonnegative integers the mask `& 255` equals `% 256` (mod 2^8). -/
def compute_checksum (byte_1 byte_2 byte_3 byte_4 byte_5 : Nat) : Bool :=
  decide ((byte_1 + byte_2 + byte_3 + byte_4) % 256 = byte_5)

/-- Value of a big-endian bit group.  The source builds the string of the
bit digits and parses it in base 2 (`np.int(byte_str, 2)`), which for binary
digits is exactly this fold. -/
def bitsToByte (bits : List Nat) : Nat :=
  bits.foldl (fun acc b => acc * 2 + b) 0

/-- Embedding of `bits_to_bytes` (line 136): slices the 40 bits into five
big-endian bytes `bits[0:8]` .. `bits[32:40]`, tests the checksum, and returns
the first four bytes together with the checksum verdict (the raised
`ValueError` for a wrong length becomes an error result). -/
def bits_to_bytes (bits : List Nat) :
    Except String (Nat × Nat × Nat × Nat × Bool) :=
  if bits.length ≠ 40 then
    Except.error ("list of bits not equal to 40: " ++ toString bits.length)
  else
    let byte_1 := bitsToByte (bits.take 8)
    let byte_2 := bitsToByte ((bits.drop 8).take 8)
    let byte_3 := bitsToByte ((bits.drop 16).take 8)
    let byte_4 := bitsToByte ((bits.drop 24).take 8)
    let byte_5 := bitsToByte ((bits.drop 32).take 8)
    Except.ok (byte_1, byte_2, byte_3, byte_4,
      compute_checksum byte_1 byte_2 byte_3 byte_4 byte_5)

/-- Result of the external capture primitive `dht22.read_bits(pin, delay)`:
either no response (`first is None`, the second component is a message), or a
first-bit marker together with the captured bit sequence. -/
inductive CaptureResult where
  | failure (msg : String)
  | success (first : Int) (bits : List Nat)
deriving DecidableEq

/-- Embedding of `read_dht22_single` (line 177) applied to the outcome of the
capture primitive: fails when the sensor did not respond, when the start
marker `first` is not `1`, when the bit count is not 40, or when the checksum
does not match; on success returns relative humidity
`(byte_1 << 8 + byte_2) / 10` and temperature in Celsius
`(byte_3 << 8 + byte_4) / 10`. -/
def read_dht22_single (capture : CaptureResult) : Except String (ℚ × ℚ) :=
  match capture with
  | CaptureResult.failure msg => Except.error msg
  | CaptureResult.success first bits =>
    if first ≠ 1 then Except.error ("Fail first != 1")
    else if bits.length = 40 then
      match bits_to_bytes bits with
      | Except.ok (byte_1, byte_2, byte_3, byte_4, ok) =>
        if ok then
          Except.ok (((byte_1 : ℚ) * 256 + (byte_2 : ℚ)) / 10,
                     ((byte_3 : ℚ) * 256 + (byte_4 : ℚ)) / 10)
        else Except.error ("Fail checksum")
      | Except.error e => Except.error e
    else Except.error ("Fail len(bits) != 40 [" ++ toString bits.length ++ "]")

/-- The 40-bit end-to-end fixture named by the spec. -/
def exBits : List Nat :=
  [0,0,0,0,0,0,1,0, 0,0,0,0,1,1,0,0, 0,0,0,0,0,0,0,1, 0,1,0,1,0,0,0,0,
   0,1,1,1,1,1,1,0]

/-- `bits_to_bytes` on a 40-bit list: the five big-endian slice values and
the checksum verdict. -/
theorem bits_to_bytes_eq (bits : List Nat) (hlen : bits.length = 40) :
    bits_to_bytes bits
      = Except.ok (bitsToByte (bits.take 8), bitsToByte ((bits.drop 8).take 8),
          bitsToByte ((bits.drop 16).take 8), bitsToByte ((bits.drop 24).take 8),
          compute_checksum (bitsToByte (bits.take 8))
            (bitsToByte ((bits.drop 8).take 8))
            (bitsToByte ((bits.drop 16).take 8))
            (bitsToByte ((bits.drop 24).take 8))
            (bitsToByte ((bits.drop 32).take 8))) := by
  simp [bits_to_bytes, hlen]

/-- Claim C1: for every 40-bit capture with start marker present and equal to
the expected value `1`, decoding succeeds if and only if
`(B1+B2+B3+B4) % 256 = B5` for the five big-endian byte groups; on success it
returns humidity `((B1<<8)+B2)/10` and temperature in Celsius
`((B3<<8)+B4)/10` (Fahrenheit conversion being `c2f C = C*9/5+32`), and for
any non-matching `B5` it fails with the checksum-mismatch error. -/
theorem decode_checksum_iff (bits : List Nat)
    (hlen : bits.length = 40) (hbin : ∀ b ∈ bits, b ≤ 1) :
    (read_dht22_single (CaptureResult.success 1 bits)
        = Except.ok
            (((bitsToByte (bits.take 8) : ℚ) * 256
                + (bitsToByte ((bits.drop 8).take 8) : ℚ)) / 10,
             ((bitsToByte ((bits.drop 16).take 8) : ℚ) * 256
                + (bitsToByte ((bits.drop 24).take 8) : ℚ)) / 10)
      ↔ (bitsToByte (bits.take 8) + bitsToByte ((bits.drop 8).take 8)
          + bitsToByte ((bits.drop 16).take 8)
          + bitsToByte ((bits.drop 24).take 8)) % 256
          = bitsToByte ((bits.drop 32).take 8))
    ∧ ((bitsToByte (bits.take 8) + bitsToByte ((bits.drop 8).take 8)
          + bitsToByte ((bits.drop 16).take 8)
          + bitsToByte ((bits.drop 24).take 8)) % 256
          ≠ bitsToByte ((bits.drop 32).take 8) →
        read_dht22_single (CaptureResult.success 1 bits)
          = Except.error ("Fail checksum"))
    ∧ (∀ C : ℚ, c2f C = C * 9 / 5 + 32) := by
  have hb := bits_to_bytes_eq bits hlen
  refine ⟨⟨fun hok => ?_, fun hc => ?_⟩, fun hne => ?_, fun C => rfl⟩
  · by_contra hne
    rw [show read_dht22_single (CaptureResult.success 1 bits)
          = Except.error ("Fail checksum") by
        simp [read_dht22_single, hlen, hb, compute_checksum, hne]] at hok
    exact absurd hok (by simp)
  · simp [read_dht22_single, hlen, hb, compute_checksum, hc]
  · simp [read_dht22_single, hlen, hb, compute_checksum, hne]

/-- Witness for C1: the all-zero 40-bit frame has matching checksum and
decodes to humidity 0 and temperature 0. -/
theorem decode_checksum_iff_witness :
    read_dht22_single (CaptureResult.success 1 (List.replicate 40 0))
      = Except.ok
          (((bitsToByte ((List.replicate 40 0).take 8) : ℚ) * 256
              + (bitsToByte (((List.replicate 40 0).drop 8).take 8) : ℚ)) / 10,
           ((bitsToByte (((List.replicate 40 0).drop 16).take 8) : ℚ) * 256
              + (bitsToByte (((List.replicate 40 0).drop 24).take 8) : ℚ)) / 10) :=
  (decode_checksum_iff (List.replicate 40 0) (by decide) (by decide)).1.mpr
    (by decide)

/-- Claim C9: with the start marker present and valid, a capture whose bit
count differs from 40 fails with the wrong-length error regardless of the bit
content (and the result depends only on the length, so the checksum is never
consulted). -/
theorem decode_wrong_length_spec (bits : List Nat) (hne : bits.length ≠ 40) :
    read_dht22_single (CaptureResult.success 1 bits)
        = Except.error ("Fail len(bits) != 40 [" ++ toString bits.length ++ "]")
    ∧ (∀ bits2 : List Nat, bits2.length = bits.length →
        read_dht22_single (CaptureResult.success 1 bits2)
          = read_dht22_single (CaptureResult.success 1 bits)) := by
  constructor
  · simp [read_dht22_single, hne]
  · intro bits2 hl2
    have hne2 : bits2.length ≠ 40 := by rw [hl2]; exact hne
    simp [read_dht22_single, hne, hne2, hl2]

/-- Witness for C9: a 1-bit capture fails with the wrong-length error. -/
theorem decode_wrong_length_spec_witness :
    read_dht22_single (CaptureResult.success 1 [0])
      = Except.error
          ("Fail len(bits) != 40 [" ++ toString ([0] : List Nat).length ++ "]") :=
  (decode_wrong_length_spec [0] (by decide)).1

/-- Counterexample to claim C5: for the fixture bits the fifth byte group is
126, not 94, the checksum fails, and the decoder does not return
humidity 51.2 (= 256/5) and temperature 33.6 (= 168/5). -/
theorem fixture_counterexample :
    bitsToByte ((exBits.drop 32).take 8) = 126
    ∧ bitsToByte ((exBits.drop 32).take 8) ≠ 94
    ∧ read_dht22_single (CaptureResult.success 1 exBits)
        = Except.error ("Fail checksum")
    ∧ read_dht22_single (CaptureResult.success 1 exBits)
        ≠ Except.ok ((256 : ℚ) / 5, (168 : ℚ) / 5) := by
  decide

/-- Claim C5 as amended: for the fixture bits with a valid start marker, the
decoder reads B1=2, B2=12, B3=1, B4=80, B5=126; the checksum sum
`(2+12+1+80) % 256 = 95` differs from B5, so the reading is rejected with the
checksum-mismatch error. -/
theorem fixture_decode_spec :
    bitsToByte (exBits.take 8) = 2
    ∧ bitsToByte ((exBits.drop 8).take 8) = 12
    ∧ bitsToByte ((exBits.drop 16).take 8) = 1
    ∧ bitsToByte ((exBits.drop 24).take 8) = 80
    ∧ bitsToByte ((exBits.drop 32).take 8) = 126
    ∧ (2 + 12 + 1 + 80) % 256 = 95
    ∧ read_dht22_single (CaptureResult.success 1 exBits)
        = Except.error ("Fail checksum") := by
  decide

/-! ### Channel state (`sensors.py` lines 221-430) -/

/-- A data record as built in `Channel.run` (line 274):
`{'type': 'sample', 'pin': .., 'RH': .., 'Tf': .., 'time_stamp': ..}`. -/
structure Info where
  type : String
  pin : Nat
  RH : ℚ
  Tf : ℚ
  time_stamp : ℚ
deriving DecidableEq

/-- Module constant `_time_wait_default = 5.` (line 221). -/
def _time_wait_default : ℚ := 5

/-- Module constant `_time_history_default = 10*60` (line 222). -/
def _time_history_default : ℚ := 10 * 60

/-- The mutable state of a `Channel` object (lines 224-257).  The shared
`Queue.Queue` is embedded as a FIFO list together with its `maxsize` bound
(`maxsize = 0` is the unbounded Python default).  `num_min_history = 10` and
`check_threshold = 25` are the values assigned in `__init__`. -/
structure Channel where
  num_min_history : Nat := 10
  check_threshold : ℚ := 25
  pin : Nat
  time_wait : ℚ := _time_wait_default
  time_history : ℚ := _time_history_default
  data_history : List Info := []
  data_latest : Option Info := none
  keep_running : Bool := false
  queue : List Info := []
  queue_maxsize : Nat := 0
deriving DecidableEq

/-- Embedding of `np.median` as used on the per-field history lists: sort
ascending; for an odd count take the middle element, for an even count the
mean of the two middle elements. -/
def median (xs : List ℚ) : ℚ :=
  let s := List.insertionSort (fun a b => a ≤ b) xs
  if xs.length % 2 = 1 then s.getD (xs.length / 2) 0
  else (s.getD (xs.length / 2 - 1) 0 + s.getD (xs.length / 2) 0) / 2

/-- Embedding of `Channel._check_data_value` (line 351): replace the
candidate by the historical median when it deviates from the median by more
than `check_threshold`, otherwise keep it. -/
def Channel.check_data_value (c : Channel) (samples : List ℚ) (value : ℚ) : ℚ :=
  if c.check_threshold < |value - median samples| then median samples else value

/-- Embedding of `Channel.check_values` (line 369): with at least
`num_min_history` history entries, check the `RH` and `Tf` fields
independently against the per-field history medians on a copy of the record;
otherwise pass the record through unchanged. -/
def Channel.check_values (c : Channel) (info_new : Info) : Info :=
  if c.num_min_history ≤ c.data_history.length then
    { info_new with
        RH := c.check_data_value (c.data_history.map Info.RH) info_new.RH,
        Tf := c.check_data_value (c.data_history.map Info.Tf) info_new.Tf }
  else info_new

/-- The history entries of `adjust_history` (line 327) that are strictly
older than the retention window at time `now` (`list_too_old`). -/
def Channel.history_too_old (c : Channel) (now : ℚ) : List Info :=
  c.data_history.filter (fun d => decide (c.time_history < now - d.time_stamp))

/-- The history entries that survive `adjust_history` at time `now`.
The source removes each value-equal `list_too_old` entry with
`list.remove`; since any entry equal to a too-old entry is itself too old,
this is extensionally the order-preserving filter keeping in-window
entries. -/
def Channel.history_keep (c : Channel) (now : ℚ) : List Info :=
  c.data_history.filter (fun d => decide (¬ c.time_history < now - d.time_stamp))

/-- Embedding of `Channel.adjust_history` (line 327): drop the too-old
entries and return the updated channel with `(num_remain, num_removed)`. -/
def Channel.adjust_history (c : Channel) (now : ℚ) : Channel × Nat × Nat :=
  ({ c with data_history := c.history_keep now },
   (c.history_keep now).length, (c.history_too_old now).length)

/-- Outcome of `Channel.add_data`: either the updated channel state plus the
stored record, or a raised exception message together with the channel state
at the point of the raise (Python mutations made before a raise persist). -/
inductive AddDataResult where
  | ok (c : Channel) (info : Info)
  | err (msg : String) (c : Channel)
deriving DecidableEq

/-- The channel state contained in an `AddDataResult`. -/
def AddDataResult.channel : AddDataResult → Channel
  | AddDataResult.ok c _ => c
  | AddDataResult.err _ c => c

/-- The raised exception message, if any, of an `AddDataResult`. -/
def AddDataResult.errMsg : AddDataResult → Option String
  | AddDataResult.ok _ _ => none
  | AddDataResult.err m _ => some m

/-- Embedding of `Channel.add_data` (line 302): evict old history first
(raising `ValueError('No data remains in history.')` when the eviction
emptied a previously non-empty history), then value-check the record, append
it to the history, set it as latest, and finally enqueue it non-blockingly
(`Queue.put(info, False)` raises `Queue.Full` when `0 < maxsize <= qsize`,
re-raised by the except clause). -/
def Channel.add_data (c : Channel) (now : ℚ) (info : Info) : AddDataResult :=
  let c1 := (c.adjust_history now).1
  if (c.adjust_history now).2.1 = 0 ∧ 0 < (c.adjust_history now).2.2 then
    AddDataResult.err ("No data remains in history.") c1
  else
    let info2 := c1.check_values info
    let c2 := { c1 with data_history := c1.data_history ++ [info2],
                        data_latest := some info2 }
    if 0 < c2.queue_maxsize ∧ c2.queue_maxsize ≤ c2.queue.length then
      AddDataResult.err ("Queue.Full") c2
    else
      AddDataResult.ok { c2 with queue := c2.queue ++ [info2] } info2

/-- `check_values` never touches the `pin`, `type` and `time_stamp` fields:
both branches keep them equal to the input record's. -/
theorem check_values_preserves (c : Channel) (info : Info) :
    (c.check_values info).pin = info.pin
    ∧ (c.check_values info).type = info.type
    ∧ (c.check_values info).time_stamp = info.time_stamp := by
  unfold Channel.check_values
  split <;> simp

/-- Claim C2: with at least `num_min_history` history entries, a candidate
field value deviating from the field's history median by more than
`check_threshold` is replaced by exactly that median, a candidate within the
threshold passes through unchanged, the check being applied independently to
the `RH` and `Tf` fields; with fewer history entries the record passes
through unchanged. -/
theorem check_values_outlier_spec (c : Channel) (info : Info) :
    (c.num_min_history ≤ c.data_history.length →
        (c.check_threshold < |info.RH - median (c.data_history.map Info.RH)| →
            (c.check_values info).RH = median (c.data_history.map Info.RH))
        ∧ (|info.RH - median (c.data_history.map Info.RH)| ≤ c.check_threshold →
            (c.check_values info).RH = info.RH)
        ∧ (c.check_threshold < |info.Tf - median (c.data_history.map Info.Tf)| →
            (c.check_values info).Tf = median (c.data_history.map Info.Tf))
        ∧ (|info.Tf - median (c.data_history.map Info.Tf)| ≤ c.check_threshold →
            (c.check_values info).Tf = info.Tf))
    ∧ (c.data_history.length < c.num_min_history → c.check_values info = info) := by
  constructor
  · intro hmin
    refine ⟨fun h => ?_, fun h => ?_, fun h => ?_, fun h => ?_⟩
    · simp [Channel.check_values, Channel.check_data_value, hmin, h]
    · simp [Channel.check_values, Channel.check_data_value, hmin, not_lt.mpr h]
    · simp [Channel.check_values, Channel.check_data_value, hmin, h]
    · simp [Channel.check_values, Channel.check_data_value, hmin, not_lt.mpr h]
  · intro hlt
    simp [Channel.check_values, not_le.mpr hlt]

/-- History fixture: ten identical entries with `RH = 50` and `Tf = 70`. -/
def infoHist : Info :=
  { type := "sample", pin := 4, RH := 50, Tf := 70, time_stamp := 100 }

/-- Channel fixture with a ten-entry history. -/
def chW : Channel :=
  { pin := 4,
    data_history := [infoHist, infoHist, infoHist, infoHist, infoHist,
      infoHist, infoHist, infoHist, infoHist, infoHist] }

/-- Candidate fixture: `RH = 100` deviates by 50 from the history median 50,
`Tf = 80` deviates by 10 from the history median 70. -/
def infoCand : Info :=
  { type := "sample", pin := 4, RH := 100, Tf := 80, time_stamp := 200 }

/-- Witness for C2: on a ten-entry history the out-of-band `RH` candidate is
replaced by the history median while the in-band `Tf` candidate survives. -/
theorem check_values_outlier_spec_witness :
    (chW.check_values infoCand).RH = median (chW.data_history.map Info.RH)
    ∧ (chW.check_values infoCand).Tf = infoCand.Tf := by
  have h := (check_values_outlier_spec chW infoCand).1 (by decide)
  refine ⟨h.1 ?_, h.2.2.2 ?_⟩
  · have hm : median (chW.data_history.map Info.RH) = 50 := by
      norm_num [median, chW, infoHist, List.insertionSort, List.orderedInsert]
    rw [hm, show infoCand.RH - (50 : ℚ) = 50 by norm_num [infoCand],
      abs_of_nonneg (by norm_num : (0 : ℚ) ≤ 50)]
    norm_num [chW]
  · have hm : median (chW.data_history.map Info.Tf) = 70 := by
      norm_num [median, chW, infoHist, List.insertionSort, List.orderedInsert]
    rw [hm, show infoCand.Tf - (70 : ℚ) = 10 by norm_num [infoCand],
      abs_of_nonneg (by norm_num : (0 : ℚ) ≤ 10)]
    norm_num [chW]

/-- Claim C10: the outlier check modifies at most the `RH` and `Tf` fields:
with enough history the returned record keeps `pin`, `type` and `time_stamp`
equal to the input's, and with fewer than `num_min_history` entries the
returned record is the input record itself. -/
theorem check_values_frame_spec (c : Channel) (info : Info) :
    (c.num_min_history ≤ c.data_history.length →
        (c.check_values info).pin = info.pin
        ∧ (c.check_values info).type = info.type
        ∧ (c.check_values info).time_stamp = info.time_stamp)
    ∧ (c.data_history.length < c.num_min_history → c.check_values info = info) := by
  refine ⟨fun _ => check_values_preserves c info, fun hlt => ?_⟩
  simp [Channel.check_values, not_le.mpr hlt]

/-- Witness for C10: the substituting check on the ten-entry history fixture
keeps `pin`, `type` and `time_stamp` of the candidate. -/
theorem check_values_frame_spec_witness :
    (chW.check_values infoCand).pin = infoCand.pin
    ∧ (chW.check_values infoCand).type = infoCand.type
    ∧ (chW.check_values infoCand).time_stamp = infoCand.time_stamp :=
  (check_values_frame_spec chW infoCand).1 (by decide)

/-- Claim C3: on the non-raising path of `add_data`, eviction runs before the
record is inserted and keeps exactly the in-window entries, so immediately
afterwards the history is the kept entries followed by the freshly checked
record (which keeps the input's timestamp and is never itself evicted), and
no entry older than the retention window as measured at the eviction
remains. -/
theorem add_data_eviction_spec (c : Channel) (now : ℚ) (info : Info)
    (hfresh : now - info.time_stamp ≤ c.time_history)
    (hsafe : ¬ ((c.history_keep now).length = 0
        ∧ 0 < (c.history_too_old now).length)) :
    (c.add_data now info).channel.data_history
        = c.history_keep now ++ [((c.adjust_history now).1).check_values info]
    ∧ (((c.adjust_history now).1).check_values info).time_stamp = info.time_stamp
    ∧ (∀ d ∈ (c.add_data now info).channel.data_history,
        now - d.time_stamp ≤ c.time_history) := by
  have hts := (check_values_preserves ((c.adjust_history now).1) info).2.2
  have hmain : (c.add_data now info).channel.data_history
      = c.history_keep now ++ [((c.adjust_history now).1).check_values info] := by
    simp only [Channel.add_data, Channel.adjust_history]
    rw [if_neg hsafe]
    split <;> simp [AddDataResult.channel]
  refine ⟨hmain, hts, ?_⟩
  intro d hd
  rw [hmain] at hd
  rcases List.mem_append.1 hd with hk | he
  · simp only [Channel.history_keep, List.mem_filter, decide_eq_true_eq] at hk
    exact not_lt.1 hk.2
  · have hde : d = ((c.adjust_history now).1).check_values info := by simpa using he
    rw [hde, hts]
    exact hfresh

/-- Fixture: an in-window history entry (age 500 at time 1000). -/
def infoKeep : Info :=
  { type := "sample", pin := 4, RH := 50, Tf := 70, time_stamp := 500 }

/-- Fixture: a stale history entry (age 1000 at time 1000, window 600). -/
def infoStale : Info :=
  { type := "sample", pin := 4, RH := 50, Tf := 70, time_stamp := 0 }

/-- Fixture: a fresh incoming record at time 990. -/
def infoNew : Info :=
  { type := "sample", pin := 4, RH := 51, Tf := 71, time_stamp := 990 }

/-- Channel fixture holding one in-window and one stale history entry. -/
def chC3 : Channel := { pin := 4, data_history := [infoKeep, infoStale] }

/-- Witness for C3: appending at time 1000 evicts only the stale entry and
leaves the kept entry followed by the new record, all within the window. -/
theorem add_data_eviction_spec_witness :
    (chC3.add_data 1000 infoNew).channel.data_history
        = chC3.history_keep 1000
            ++ [((chC3.adjust_history 1000).1).check_values infoNew]
    ∧ (((chC3.adjust_history 1000).1).check_values infoNew).time_stamp
        = infoNew.time_stamp
    ∧ (∀ d ∈ (chC3.add_data 1000 infoNew).channel.data_history,
        1000 - d.time_stamp ≤ chC3.time_history) :=
  add_data_eviction_spec chC3 1000 infoNew
    (by norm_num [infoNew, chC3, _time_history_default])
    (by
      have hk : chC3.history_keep 1000 = [infoKeep] := by
        norm_num [Channel.history_keep, chC3, infoKeep, infoStale,
          _time_history_default, List.filter]
      simp [hk])

/-- Channel fixture whose whole history is stale at time 1000. -/
def chStale : Channel := { pin := 4, data_history := [infoStale] }

/-- Counterexample to claim C4: appending a fresh valid record when every
existing history entry is older than the retention window does not succeed —
`add_data` raises `ValueError('No data remains in history.')` before the new
record is inserted, leaving the emptied history rather than a buffer holding
exactly the new sample. -/
theorem add_data_stale_counterexample :
    (chStale.add_data 1000 infoNew).errMsg
        = some ("No data remains in history.")
    ∧ chStale.add_data 1000 infoNew
        = AddDataResult.err ("No data remains in history.")
            { chStale with data_history := [] } := by
  have hk : chStale.history_keep 1000 = [] := by
    norm_num [Channel.history_keep, chStale, infoStale, _time_history_default,
      List.filter]
  have ht : chStale.history_too_old 1000 = [infoStale] := by
    norm_num [Channel.history_too_old, chStale, infoStale, _time_history_default,
      List.filter]
  constructor
  · simp [Channel.add_data, Channel.adjust_history, hk, ht, AddDataResult.errMsg]
  · simp [Channel.add_data, Channel.adjust_history, hk, ht]

/-- Claim C4 as amended: appending a record when the history is non-empty and
every existing entry is older than the retention window raises
`ValueError('No data remains in history.')` with the history emptied and the
new record never inserted; the assertion fires exactly because the eviction
(which runs before the append) emptied a previously non-empty history, so it
never involves the freshly appended sample. -/
theorem add_data_stale_raises (c : Channel) (now : ℚ) (info : Info)
    (hne : c.data_history ≠ [])
    (hstale : ∀ d ∈ c.data_history, c.time_history < now - d.time_stamp) :
    c.add_data now info
      = AddDataResult.err ("No data remains in history.")
          { c with data_history := [] } := by
  have hkeep : c.history_keep now = [] := by
    simp only [Channel.history_keep, List.filter_eq_nil_iff, decide_eq_true_eq]
    intro d hd
    simp [hstale d hd]
  have htoo : c.history_too_old now = c.data_history := by
    simp only [Channel.history_too_old]
    rw [List.filter_eq_self]
    intro d hd
    simp [hstale d hd]
  simp only [Channel.add_data, Channel.adjust_history]
  rw [hkeep, htoo]
  rw [if_pos ⟨rfl, List.length_pos.2 hne⟩]

/-- Fixture: a fresh incoming record at time 1990. -/
def infoNew2 : Info :=
  { type := "sample", pin := 4, RH := 52, Tf := 72, time_stamp := 1990 }

/-- Witness for the amended C4: at time 2000 the single history entry (age
2000) is stale, so `add_data` raises and empties the history. -/
theorem add_data_stale_raises_witness :
    chStale.add_data 2000 infoNew2
      = AddDataResult.err ("No data remains in history.")
          { chStale with data_history := [] } :=
  add_data_stale_raises chStale 2000 infoNew2 (by simp [chStale])
    (by norm_num [chStale, infoStale, _time_history_default])

/-- Claim C7: the record is published with a non-blocking enqueue: when the
shared bounded queue is full the channel raises `Queue.Full` — the queue is
left unchanged, nothing is silently dropped, and the error propagates out of
`add_data` — while with room in the queue the record is appended to it. -/
theorem add_data_queue_publish (c : Channel) (now : ℚ) (info : Info)
    (hsafe : ¬ ((c.history_keep now).length = 0
        ∧ 0 < (c.history_too_old now).length)) :
    (0 < c.queue_maxsize ∧ c.queue_maxsize ≤ c.queue.length →
        (c.add_data now info).errMsg = some ("Queue.Full")
        ∧ (c.add_data now info).channel.queue = c.queue)
    ∧ (¬ (0 < c.queue_maxsize ∧ c.queue_maxsize ≤ c.queue.length) →
        (c.add_data now info).errMsg = none
        ∧ (c.add_data now info).channel.queue
            = c.queue ++ [((c.adjust_history now).1).check_values info]) := by
  constructor
  · intro hfull
    simp only [Channel.add_data, Channel.adjust_history]
    rw [if_neg hsafe, if_pos (by simpa using hfull)]
    simp [AddDataResult.errMsg, AddDataResult.channel]
  · intro hroom
    simp only [Channel.add_data, Channel.adjust_history]
    rw [if_neg hsafe, if_neg (by simpa using hroom)]
    simp [AddDataResult.errMsg, AddDataResult.channel]

/-- Channel fixture with a full shared queue (`maxsize = 1`, one queued
record) and empty history. -/
def chFull : Channel := { pin := 3, queue := [infoKeep], queue_maxsize := 1 }

/-- Witness for C7: publishing into the full queue raises `Queue.Full` and
leaves the queue unchanged. -/
theorem add_data_queue_publish_witness :
    (chFull.add_data 1000 infoNew).errMsg = some ("Queue.Full")
    ∧ (chFull.add_data 1000 infoNew).channel.queue = chFull.queue :=
  (add_data_queue_publish chFull 1000 infoNew (by decide)).1 (by decide)

/-! ### Collection coordinator (`sensors.py` lines 436-560) -/

/-- Embedding of `Channel.stop` (line 295): clear the running flag. -/
def Channel.stop (c : Channel) : Channel := { c with keep_running := false }

/-- Embedding of `stop_all_channels` (line 436): stop every channel. -/
def stop_all_channels (channels : List Channel) : List Channel :=
  channels.map Channel.stop

/-- Readiness timeout constant `time_wait_max = 30` seconds (line 482). -/
def time_wait_max : Nat := 30

/-- The `count_ready` tally of the readiness loop (line 488): the number of
channels whose `data_latest` is set. -/
def count_ready (channels : List Channel) : Nat :=
  (channels.filter (fun c => c.data_latest.isSome)).length

/-- Net effect of the readiness-synchronization phase of `collect_data`
(lines 481-503) on channels whose readiness state is fixed within the
timeout window (`data_latest` is only ever set, never cleared, so the loop's
final tally is the count over that state): when every channel is ready the
startup proceeds with the channels untouched; otherwise the loop times out,
every channel is stopped, and the raised
`ValueError('Only %d channels ready (out of %d) ...')` carries the ready
count and the total count. -/
def readiness_sync (channels : List Channel) :
    Except (Nat × Nat × List Channel) (List Channel) :=
  if count_ready channels = channels.length then Except.ok channels
  else
    Except.error (count_ready channels, channels.length,
      stop_all_channels channels)

/-- A boolean filter keeps the whole length exactly when every element
satisfies the predicate. -/
theorem length_filter_eq_iff {α : Type} (p : α → Bool) (l : List α) :
    (l.filter p).length = l.length ↔ ∀ a ∈ l, p a = true := by
  induction l with
  | nil => simp
  | cons a t ih =>
    by_cases hp : p a = true
    · simp [List.filter_cons_of_pos hp, hp, ih]
    · have hle := List.length_filter_le p t
      simp only [List.filter_cons_of_neg hp, List.length_cons]
      constructor
      · intro h
        omega
      · intro h
        exact absurd (h a (List.mem_cons_self a t)) hp

/-- Claim C6: when fewer channels than the total ever report a latest sample
within the readiness timeout (constant `time_wait_max = 30`), startup fails
with an error carrying exactly the ready count and the total count, with
every channel stopped before the error is surfaced; and startup succeeds
exactly when every channel has produced at least one sample. -/
theorem readiness_sync_spec (channels : List Channel) :
    (count_ready channels < channels.length →
        readiness_sync channels
          = Except.error (count_ready channels, channels.length,
              stop_all_channels channels)
        ∧ ∀ c ∈ stop_all_channels channels, c.keep_running = false)
    ∧ (readiness_sync channels = Except.ok channels
        ↔ ∀ c ∈ channels, c.data_latest.isSome = true)
    ∧ time_wait_max = 30 := by
  refine ⟨fun hlt => ⟨?_, ?_⟩, ?_, rfl⟩
  · unfold readiness_sync
    rw [if_neg (Nat.ne_of_lt hlt)]
  · intro c hc
    rcases List.mem_map.1 hc with ⟨c0, _, rfl⟩
    rfl
  · unfold readiness_sync
    by_cases h : count_ready channels = channels.length
    · rw [if_pos h]
      exact iff_of_true rfl ((length_filter_eq_iff _ _).1 h)
    · rw [if_neg h]
      constructor
      · intro hcontra
        exact Except.noConfusion hcontra
      · intro hall
        exact absurd ((length_filter_eq_iff _ _).2 hall) h

/-- Channel fixture that has produced a sample. -/
def chReady : Channel := { pin := 1, data_latest := some infoHist }

/-- Channel fixture that never produced a sample. -/
def chNotReady : Channel := { pin := 2 }

/-- Witness for C6: with one ready channel out of two, startup fails carrying
the counts, and both channels end up stopped. -/
theorem readiness_sync_spec_witness :
    readiness_sync [chReady, chNotReady]
      = Except.error (count_ready [chReady, chNotReady],
          ([chReady, chNotReady] : List Channel).length,
          stop_all_channels [chReady, chNotReady])
    ∧ ∀ c ∈ stop_all_channels [chReady, chNotReady], c.keep_running = false :=
  (readiness_sync_spec [chReady, chNotReady]).1
    (by simp [count_ready, chReady, chNotReady, List.filter])

/-- The timestamp that keys the persisted batch file in the main loop of
`collect_data` (line 526): `t = data_collected[0]['time_stamp']`, the
timestamp of the first record drained from the queue (the loop persists only
non-empty batches, so the nil case is never reached by the source). -/
def batch_file_time_stamp : List Info → ℚ
  | [] => 0
  | i :: _ => i.time_stamp

/-- The file name of line 530, `'data-%s.yml' % time_stamp`, applied to the
externally formatted timestamp (`utility.reformat_timestamp` localizes to
America/Los_Angeles and formats with `'%Y-%m-%d %H-%M-%S'`; timestamp
formatting is an out-of-scope external collaborator). -/
def batch_file_name (formatted_time_stamp : String) : String :=
  "data-" ++ formatted_time_stamp ++ ".yml"

/-- The earliest (minimum) timestamp of a batch — what the spec's words
demand as the file key; stated separately to compare with the timestamp the
code actually uses. -/
def spec_min_time_stamp : List Info → ℚ
  | [] => 0
  | i :: rest => (rest.map Info.time_stamp).foldr min i.time_stamp

/-- Folding `min` over values that all dominate the seed returns the seed. -/
theorem foldr_min_of_le (x : ℚ) (l : List ℚ) (h : ∀ y ∈ l, x ≤ y) :
    l.foldr min x = x := by
  induction l with
  | nil => rfl
  | cons a t ih =>
    simp only [List.foldr_cons]
    rw [ih (fun y hy => h y (List.mem_cons_of_mem a hy)),
      min_eq_right (h a (List.mem_cons_self a t))]

/-- Fixture: a record with the later timestamp 100, drained first. -/
def infoLate : Info :=
  { type := "sample", pin := 4, RH := 50, Tf := 70, time_stamp := 100 }

/-- Fixture: a record with the earlier timestamp 50, drained second. -/
def infoEarly : Info :=
  { type := "sample", pin := 17, RH := 40, Tf := 60, time_stamp := 50 }

/-- Counterexample to claim C8: for the batch that drains the timestamp-100
record before the timestamp-50 record, the code keys the file by 100, the
timestamp of the first drained record, which is not the batch's earliest
(minimum) timestamp 50. -/
theorem batch_key_counterexample :
    batch_file_time_stamp [infoLate, infoEarly] = 100
    ∧ spec_min_time_stamp [infoLate, infoEarly] = 50
    ∧ batch_file_time_stamp [infoLate, infoEarly]
        ≠ spec_min_time_stamp [infoLate, infoEarly] := by
  have h1 : batch_file_time_stamp [infoLate, infoEarly] = 100 := rfl
  have h2 : spec_min_time_stamp [infoLate, infoEarly] = 50 := by
    norm_num [spec_min_time_stamp, infoLate, infoEarly, min_def]
  refine ⟨h1, h2, ?_⟩
  rw [h1, h2]
  norm_num

/-- Claim C8 as amended: a non-empty drained batch is persisted as one unit
whose file name `data-<formatted>.yml` is keyed by the timestamp of the
first record drained from the queue; this coincides with the batch's
earliest (minimum) timestamp whenever the drained batch is ordered by
nondecreasing timestamp, but not in general. -/
theorem batch_key_first_spec (batch : List Info) (h : batch ≠ []) :
    batch_file_time_stamp batch = (batch.head h).time_stamp
    ∧ (List.Sorted (fun a b => a ≤ b) (batch.map Info.time_stamp) →
        batch_file_time_stamp batch = spec_min_time_stamp batch) := by
  match batch with
  | [] => exact absurd rfl h
  | i :: rest =>
    refine ⟨rfl, fun hs => ?_⟩
    simp only [batch_file_time_stamp, spec_min_time_stamp]
    exact (foldr_min_of_le i.time_stamp (rest.map Info.time_stamp)
      (fun y hy => (List.sorted_cons.1 (by simpa using hs)).1 y hy)).symm

/-- Witness for the amended C8: on a batch drained in timestamp order the
file key is indeed the earliest timestamp. -/
theorem batch_key_first_spec_witness :
    batch_file_time_stamp [infoEarly, infoLate]
      = spec_min_time_stamp [infoEarly, infoLate] :=
  (batch_key_first_spec [infoEarly, infoLate] (by simp)).2
    (by
      simp only [List.map_cons, List.map_nil, List.sorted_cons,
        List.mem_singleton, List.mem_cons, List.not_mem_nil, or_false,
        List.Sorted, List.pairwise_cons, List.Pairwise.nil]
      norm_num [infoEarly, infoLate])

end Who8MyRPi
